import Mathlib

/-!
Shallow embedding of the event filter and relay engine of `src/bot.py`
(a Discord presence/permission-change relay bot).

Modelling conventions:
* Remote calls (`guild.fetch_member`, `client.fetch_channel`, `ch.send`) are
  embedded as explicit outcome fields of the event/environment records; an
  exception raised by the platform client becomes an explicit error value.
* Each event handler is a pure function returning the list of texts it passes
  to `relay` (in order), together with a flag recording whether the handler
  performed a remote member lookup.
* Timestamps: `datetime.now(timezone.utc)` is a broken-down UTC time passed in
  as a parameter; `strftime` is embedded below as `now_utc_str`.
-/

namespace Agubot

/-- Discriminates the Python classes of channel objects that the code tests
with `isinstance` (`discord.TextChannel`, `discord.ForumChannel`,
`discord.CategoryChannel`, voice channels, anything else). -/
inductive ChannelKind where
  | text
  | forum
  | category
  | voice
  | other
  deriving DecidableEq, Repr

/-- A channel object as the code reads it: `.id`, `.name`, and its class. -/
structure Channel where
  id : Nat
  name : String
  kind : ChannelKind
  deriving DecidableEq, Repr

/-- Outcome of the remote `guild.fetch_member` call in `guild_is_watched`:
either the member is returned, or one of the three exception types named in
the `except (discord.NotFound, discord.Forbidden, discord.HTTPException)`
clause is raised. -/
inductive FetchMemberResult where
  | found
  | notFound
  | forbidden
  | httpError
  deriving DecidableEq, Repr

/-- A guild as the handlers read it: `.id`, `.name`, the local member cache
consulted by `guild.get_member` (the ids it can resolve), the outcome of a
remote `guild.fetch_member` per user id, and the local channel cache consulted
by `guild.get_channel`. -/
structure Guild where
  id : Nat
  name : String
  members : List Nat
  fetchMember : Nat → FetchMemberResult
  channels : List Channel

/-- Embeds `guild.get_member(uid) is not None` over the local member cache. -/
def Guild.getMember (g : Guild) (uid : Nat) : Bool :=
  g.members.contains uid

/-- Embeds `guild.get_channel(cid)` over the local channel cache. -/
def Guild.getChannel (g : Guild) (cid : Nat) : Option Channel :=
  g.channels.find? (fun c => c.id == cid)

/-- The module-level configuration of `bot.py`, loaded once from the
environment: `MY_USER_ID`, `RELAY_CHANNEL_ID`, `WATCH_GUILD_IDS`,
`WATCH_TEXT_CHANNEL_IDS`, `WATCH_VOICE_CHANNEL_IDS`. The Python sets are
embedded as lists (membership is all the code uses, plus iteration order for
`WATCH_TEXT_CHANNEL_IDS`, which is unspecified for a Python set and fixed here
as the list order). -/
structure Config where
  myUserId : Nat
  relayChannelId : Nat
  watchGuildIds : List Nat
  watchTextChannelIds : List Nat
  watchVoiceChannelIds : List Nat

/-- Result of `guild_is_watched`: the returned boolean, plus instrumentation
recording whether the remote `fetch_member` call was performed (so that
"no remote lookup" claims are statable). -/
structure WatchCheck where
  watched : Bool
  remoteFetch : Bool
  deriving DecidableEq, Repr

/-- Embeds `guild_is_watched` (src/bot.py lines 62-73):
allowlist short-circuit, then local member-cache hit, then one remote
`fetch_member` that fails closed on any of the three caught exceptions. -/
def guild_is_watched (cfg : Config) (g : Guild) : WatchCheck :=
  if !cfg.watchGuildIds.isEmpty && !cfg.watchGuildIds.contains g.id then
    ⟨false, false⟩
  else if g.getMember cfg.myUserId then
    ⟨true, false⟩
  else
    match g.fetchMember cfg.myUserId with
    | .found => ⟨true, true⟩
    | .notFound => ⟨false, true⟩
    | .forbidden => ⟨false, true⟩
    | .httpError => ⟨false, true⟩

/-- A broken-down UTC wall-clock instant, as produced by
`datetime.now(timezone.utc)`. Validity bounds of the Python `datetime` type
(1 ≤ year ≤ 9999, 1 ≤ month ≤ 12, etc.) are imposed where a claim needs
them. -/
structure DateTimeUTC where
  year : Nat
  month : Nat
  day : Nat
  hour : Nat
  minute : Nat
  second : Nat
  deriving DecidableEq, Repr

/-- The ASCII digit character of `n % 10`. -/
def digitChar (n : Nat) : Char :=
  Char.ofNat (48 + n % 10)

/-- Two-digit zero-padded decimal, as `strftime` renders `%m %d %H %M %S`
on their valid domains (values below 100). -/
def pad2 (n : Nat) : String :=
  String.mk [digitChar (n / 10), digitChar n]

/-- Four-digit zero-padded decimal, as `strftime` renders `%Y` on the
`datetime` year domain (values below 10000). -/
def pad4 (n : Nat) : String :=
  String.mk [digitChar (n / 1000), digitChar (n / 100), digitChar (n / 10), digitChar n]

/-- Embeds `now_utc_str` (src/bot.py lines 41-42):
`strftime("%Y-%m-%d %H:%M:%S UTC")` applied to the given UTC instant. -/
def now_utc_str (t : DateTimeUTC) : String :=
  pad4 t.year ++ "-" ++ pad2 t.month ++ "-" ++ pad2 t.day ++ " " ++
    pad2 t.hour ++ ":" ++ pad2 t.minute ++ ":" ++ pad2 t.second ++ " UTC"

/-- What one event handler did: the texts it passed to `relay`, in order, and
whether its `guild_is_watched` call performed the remote member fetch
(`false` when the handler short-circuited before consulting membership). -/
structure HandlerResult where
  msgs : List String
  memberFetch : Bool
  deriving DecidableEq, Repr

/-- Embeds `on_member_join` (src/bot.py lines 86-90). -/
def on_member_join (cfg : Config) (g : Guild) (memberName : String)
    (now : DateTimeUTC) : HandlerResult :=
  let w := guild_is_watched cfg g
  if w.watched then
    ⟨[memberName ++ " joined : " ++ g.name ++ " at " ++ now_utc_str now], w.remoteFetch⟩
  else
    ⟨[], w.remoteFetch⟩

/-- A member-update event: the guild both snapshots live in, the `.name`
fields, and the outcome of `ch.permissions_for(before).view_channel` and
`ch.permissions_for(after).view_channel` per channel id (`Except.error` when
the permission computation raises). -/
structure MemberUpdateEvent where
  guild : Guild
  beforeName : String
  afterName : String
  permBefore : Nat → Except Unit Bool
  permAfter : Nat → Except Unit Bool

/-- The `isinstance(ch, (discord.TextChannel, discord.ForumChannel,
discord.CategoryChannel))` test of `on_member_update`. -/
def suitableTextKind : ChannelKind → Bool
  | .text => true
  | .forum => true
  | .category => true
  | .voice => false
  | .other => false

/-- The notification text built at src/bot.py line 107. -/
def gainedAccessMsg (ev : MemberUpdateEvent) (ch : Channel) (now : DateTimeUTC) : String :=
  ev.afterName ++ " gained access to : #" ++ ch.name ++ " in " ++ ev.guild.name ++
    " at " ++ now_utc_str now

/-- One iteration of the `for ch_id in WATCH_TEXT_CHANNEL_IDS` loop of
`on_member_update` (src/bot.py lines 97-107): resolve the channel, skip
unsuitable kinds, skip on a permission-computation failure, and notify only on
the false-to-true view edge. -/
def accessNotification (ev : MemberUpdateEvent) (now : DateTimeUTC) (chId : Nat) :
    Option String :=
  match ev.guild.getChannel chId with
  | none => none
  | some ch =>
    if suitableTextKind ch.kind then
      match ev.permBefore chId, ev.permAfter chId with
      | .ok b, .ok a => if !b && a then some (gainedAccessMsg ev ch now) else none
      | .ok _, .error _ => none
      | .error _, _ => none
    else none

/-- Embeds `on_member_update` (src/bot.py lines 93-107): the empty-watch-set /
scope gate, then the per-channel loop. -/
def on_member_update (cfg : Config) (ev : MemberUpdateEvent) (now : DateTimeUTC) :
    HandlerResult :=
  if cfg.watchTextChannelIds.isEmpty then
    ⟨[], false⟩
  else
    let w := guild_is_watched cfg ev.guild
    if w.watched then
      ⟨cfg.watchTextChannelIds.filterMap (accessNotification ev now), w.remoteFetch⟩
    else
      ⟨[], w.remoteFetch⟩

/-- A voice-state-update event: the member's name, the guild, and the
`before.channel` / `after.channel` references (each possibly absent). -/
structure VoiceEvent where
  memberName : String
  guild : Guild
  before : Option Channel
  after : Option Channel

/-- Embeds the local `in_watch` of `on_voice_state_update` (src/bot.py
line 115): `bool(vch and vch.id in WATCH_VOICE_CHANNEL_IDS)`. -/
def in_watch (cfg : Config) (vch : Option Channel) : Bool :=
  match vch with
  | none => false
  | some c => cfg.watchVoiceChannelIds.contains c.id

/-- Reads `.name` of a possibly-absent channel. The code only reads the name
of a channel that `in_watch` accepted, so the `none` arm is unreachable where
it is used. -/
def chName : Option Channel → String
  | some c => c.name
  | none => ""

/-- The join notification of src/bot.py line 119. -/
def joinedVoiceMsg (ev : VoiceEvent) (now : DateTimeUTC) : String :=
  ev.memberName ++ " joined voice : #" ++ chName ev.after ++ " in " ++
    ev.guild.name ++ " at " ++ now_utc_str now

/-- The leave notification of src/bot.py line 121. -/
def leftVoiceMsg (ev : VoiceEvent) (now : DateTimeUTC) : String :=
  ev.memberName ++ " left voice : #" ++ chName ev.before ++ " in " ++
    ev.guild.name ++ " at " ++ now_utc_str now

/-- The move notification of src/bot.py line 123. -/
def movedVoiceMsg (ev : VoiceEvent) (now : DateTimeUTC) : String :=
  ev.memberName ++ " moved voice : #" ++ chName ev.before ++ " → #" ++
    chName ev.after ++ " in " ++ ev.guild.name ++ " at " ++ now_utc_str now

/-- The classification body of `on_voice_state_update` (src/bot.py lines
117-123). Discord channel objects compare by class and id, so
`after.channel != before.channel` is embedded as inequality of the optional
ids. -/
def voiceMsgs (cfg : Config) (ev : VoiceEvent) (now : DateTimeUTC) : List String :=
  if (ev.after.map Channel.id) ≠ (ev.before.map Channel.id) then
    if in_watch cfg ev.after && !in_watch cfg ev.before then
      [joinedVoiceMsg ev now]
    else if in_watch cfg ev.before && !in_watch cfg ev.after then
      [leftVoiceMsg ev now]
    else if in_watch cfg ev.before && in_watch cfg ev.after then
      [movedVoiceMsg ev now]
    else
      []
  else
    []

/-- Embeds `on_voice_state_update` (src/bot.py lines 110-123): the
empty-watch-set / scope gate, then the classification. -/
def on_voice_state_update (cfg : Config) (ev : VoiceEvent) (now : DateTimeUTC) :
    HandlerResult :=
  if cfg.watchVoiceChannelIds.isEmpty then
    ⟨[], false⟩
  else
    let w := guild_is_watched cfg ev.guild
    if w.watched then
      ⟨voiceMsgs cfg ev now, w.remoteFetch⟩
    else
      ⟨[], w.remoteFetch⟩

/-- Outcome of the `ch.send(text)` call in `relay`: success, a
`discord.Forbidden` response, or any other exception (`discord.Forbidden` is
the only type the `except` clause there catches). -/
inductive SendOutcome where
  | ok
  | forbidden
  | httpError
  deriving DecidableEq, Repr

/-- Outcomes of the remote calls `relay` can make: `client.fetch_channel`
(`Except.error` when it raises; the bare `except Exception` there catches
everything) and `ch.send`. -/
structure RelayEnv where
  fetchChannel : Except Unit Channel
  send : SendOutcome

/-- The platform client's local channel cache, consulted by
`client.get_channel`. -/
structure ClientState where
  channelCache : List Channel
  deriving DecidableEq, Repr

/-- The two logger levels `relay` uses. -/
inductive LogLevel where
  | error
  | warning
  deriving DecidableEq, Repr

/-- What one `relay` call did: the client state afterwards, the log lines, the
texts actually delivered, whether the remote channel fetch was attempted, and
whether an exception escaped `relay` to its caller. -/
structure RelayResult where
  state : ClientState
  logs : List (LogLevel × String)
  sent : List String
  fetched : Bool
  uncaught : Bool
  deriving DecidableEq, Repr

/-- The second half of `relay` (src/bot.py lines 54-60), once a channel object
`ch` is in hand: the `isinstance(ch, discord.TextChannel)` test, then the send
with only `discord.Forbidden` caught — any other send failure escapes. -/
def relaySend (cfg : Config) (env : RelayEnv) (st : ClientState) (ch : Channel)
    (text : String) (fetched : Bool) : RelayResult :=
  if ch.kind = ChannelKind.text then
    match env.send with
    | .ok => ⟨st, [], [text], fetched, false⟩
    | .forbidden =>
      ⟨st, [(.warning, "No permission to send in relay channel " ++ toString ch.id)],
        [], fetched, false⟩
    | .httpError => ⟨st, [], [], fetched, true⟩
  else
    ⟨st, [(.error, "Relay channel wrong type (id=" ++ toString cfg.relayChannelId ++ ")")],
      [], fetched, false⟩

/-- Embeds `relay` (src/bot.py lines 44-60). Cache lookup, then on a miss one
remote fetch; a fetch failure is logged and drops the message.

Modelled from the spec: the platform client that backs `client.get_channel` /
`client.fetch_channel` is an external collaborator whose code is not in src/;
per the spec's OutputChannelHandle ("lazily resolved, cached reference …
refreshed via one-time remote fetch"), a successful fetch populates the local
channel cache, so the state gains the fetched channel. -/
def relay (cfg : Config) (env : RelayEnv) (st : ClientState) (text : String) :
    RelayResult :=
  match st.channelCache.find? (fun c => c.id == cfg.relayChannelId) with
  | some ch => relaySend cfg env st ch text false
  | none =>
    match env.fetchChannel with
    | .error _ =>
      ⟨st, [(.error, "Relay channel not found (id=" ++ toString cfg.relayChannelId ++ ")")],
        [], true, false⟩
    | .ok ch => relaySend cfg env ⟨ch :: st.channelCache⟩ ch text true

/-- The channel object `relay` ends up holding, if any: the cache hit, or
otherwise the successfully fetched channel. -/
def resolvedRelayChannel (cfg : Config) (env : RelayEnv) (st : ClientState) :
    Option Channel :=
  match st.channelCache.find? (fun c => c.id == cfg.relayChannelId) with
  | some ch => some ch
  | none =>
    match env.fetchChannel with
    | .ok ch => some ch
    | .error _ => none

/-- Checker for the spec's timestamp wording, written from the spec, not the
code: the string is exactly of shape `YYYY-MM-DD HH:MM:SS UTC` with decimal
digits in the letter positions. Compared against `now_utc_str` for the
format claim. -/
def timestampFormatOk (s : String) : Bool :=
  match s.toList with
  | [y1, y2, y3, y4, s1, mo1, mo2, s2, d1, d2, s3, h1, h2, s4, mi1, mi2, s5,
     se1, se2, s6, u1, u2, u3] =>
    y1.isDigit && y2.isDigit && y3.isDigit && y4.isDigit && s1 == '-' &&
    mo1.isDigit && mo2.isDigit && s2 == '-' && d1.isDigit && d2.isDigit &&
    s3 == ' ' && h1.isDigit && h2.isDigit && s4 == ':' && mi1.isDigit &&
    mi2.isDigit && s5 == ':' && se1.isDigit && se2.isDigit && s6 == ' ' &&
    u1 == 'U' && u2 == 'T' && u3 == 'C'
  | _ => false

/-! Sample values used by the concrete witness instances below. -/

/-- A text channel, id 42. -/
def chGeneral : Channel := ⟨42, "general", ChannelKind.text⟩

/-- A watched voice channel, id 99. -/
def chLounge : Channel := ⟨99, "voice-lounge", ChannelKind.voice⟩

/-- An unwatched voice channel, id 77. -/
def chAfk : Channel := ⟨77, "afk", ChannelKind.voice⟩

/-- Operator id 7, relay channel 100, empty allowlist, text watch {42},
voice watch {99}. -/
def cfgA : Config := ⟨7, 100, [], [42], [99]⟩

/-- Like `cfgA` but with allowlist {1}. -/
def cfgAllow : Config := ⟨7, 100, [1], [42], [99]⟩

/-- Like `cfgA` but with text watch [41, 42, 43]. -/
def cfgMulti : Config := ⟨7, 100, [], [41, 42, 43], [99]⟩

/-- Guild 1 where the operator (id 7) is neither cached nor fetchable. -/
def guildAbsent : Guild :=
  ⟨1, "G", [], fun _ => FetchMemberResult.httpError, [chGeneral, chLounge, chAfk]⟩

/-- Guild 1 with the operator in the local member cache. -/
def guildHome : Guild :=
  ⟨1, "G", [7], fun _ => FetchMemberResult.notFound,
    [⟨41, "alpha", ChannelKind.text⟩, chGeneral, ⟨43, "gamma", ChannelKind.text⟩,
     chLounge, chAfk]⟩

/-- Guild 2, outside the allowlist of `cfgAllow`. -/
def guildOut : Guild :=
  ⟨2, "H", [7], fun _ => FetchMemberResult.found, [chGeneral]⟩

/-- A fixed sample instant. -/
def nowX : DateTimeUTC := ⟨2025, 10, 12, 3, 4, 5⟩

/-- Member-update event in `guildAbsent` with a clean false-to-true edge. -/
def evUAbsent : MemberUpdateEvent :=
  ⟨guildAbsent, "alice", "alice", fun _ => Except.ok false, fun _ => Except.ok true⟩

/-- Member-update event in `guildHome` with a clean false-to-true edge. -/
def evUHome : MemberUpdateEvent :=
  ⟨guildHome, "alice", "alice", fun _ => Except.ok false, fun _ => Except.ok true⟩

/-- Member-update event in `guildHome` whose before-permission computation
raises on channel 42 and has a clean false-to-true edge elsewhere. -/
def evUBad : MemberUpdateEvent :=
  ⟨guildHome, "alice", "alice",
    fun cid => if cid == 42 then Except.error () else Except.ok false,
    fun _ => Except.ok true⟩

/-- Member-update event in `guildOut`. -/
def evUOut : MemberUpdateEvent :=
  ⟨guildOut, "alice", "alice", fun _ => Except.ok false, fun _ => Except.ok true⟩

/-- Voice event in `guildAbsent`: joined the watched lounge from nothing. -/
def evVAbsent : VoiceEvent := ⟨"alice", guildAbsent, none, some chLounge⟩

/-- Voice event in `guildHome`: moved from unwatched afk to the watched
lounge. -/
def evVHome : VoiceEvent := ⟨"alice", guildHome, some chAfk, some chLounge⟩

/-- Voice event in `guildHome`: left the watched lounge for nothing. -/
def evVLeave : VoiceEvent := ⟨"alice", guildHome, some chLounge, none⟩

/-- Voice event in `guildOut`. -/
def evVOut : VoiceEvent := ⟨"alice", guildOut, some chAfk, some chLounge⟩

/-- The output relay channel, id 100, of text kind. -/
def chRelay : Channel := ⟨100, "relay", ChannelKind.text⟩

/-- Relay environment where the remote fetch returns `chRelay` and the send
succeeds. -/
def envOk : RelayEnv := ⟨Except.ok chRelay, SendOutcome.ok⟩

/-! Helper lemmas shared across the claim proofs. -/

/-- When the operator is neither in the local member cache nor fetchable,
`guild_is_watched` returns false. -/
theorem guild_is_watched_false_of_absent (cfg : Config) (g : Guild)
    (hcache : g.getMember cfg.myUserId = false)
    (hfetch : g.fetchMember cfg.myUserId ≠ FetchMemberResult.found) :
    (guild_is_watched cfg g).watched = false := by
  unfold guild_is_watched
  split
  · rfl
  · rw [hcache]
    simp only [Bool.false_eq_true, if_false]
    cases hf : g.fetchMember cfg.myUserId
    case found => exact absurd hf hfetch
    all_goals rfl

/-- C1: if the operator is absent from the local member cache and the remote
fetch-member lookup fails with any of the caught error kinds, then
`guild_is_watched` is false and none of the three event handlers passes any
text to `relay` — the membership check is fail-closed for every event type. -/
theorem operator_absent_fail_closed (cfg : Config) (g : Guild)
    (memberName : String) (now : DateTimeUTC)
    (evU : MemberUpdateEvent) (evV : VoiceEvent)
    (hcache : g.getMember cfg.myUserId = false)
    (hfetch : g.fetchMember cfg.myUserId ≠ FetchMemberResult.found)
    (hU : evU.guild = g) (hV : evV.guild = g) :
    (guild_is_watched cfg g).watched = false ∧
    (on_member_join cfg g memberName now).msgs = [] ∧
    (on_member_update cfg evU now).msgs = [] ∧
    (on_voice_state_update cfg evV now).msgs = [] := by
  have hw := guild_is_watched_false_of_absent cfg g hcache hfetch
  refine ⟨hw, ?_, ?_, ?_⟩
  · simp [on_member_join, hw]
  · simp only [on_member_update, hU, hw]
    split <;> rfl
  · simp only [on_voice_state_update, hV, hw]
    split <;> rfl

/-- Witness for C1 at a concrete guild and events. -/
theorem operator_absent_fail_closed_witness :
    (guild_is_watched cfgA guildAbsent).watched = false ∧
    (on_member_join cfgA guildAbsent "alice" nowX).msgs = [] ∧
    (on_member_update cfgA evUAbsent nowX).msgs = [] ∧
    (on_voice_state_update cfgA evVAbsent nowX).msgs = [] :=
  operator_absent_fail_closed cfgA guildAbsent "alice" nowX evUAbsent evVAbsent
    rfl (by decide) rfl rfl

/-- C5: an event from a community outside a non-empty allowlist is rejected
immediately: `guild_is_watched` returns false without a remote lookup, and all
three handlers produce no relay text and perform no remote member fetch. -/
theorem allowlist_blocks_all_relay (cfg : Config) (g : Guild)
    (memberName : String) (now : DateTimeUTC)
    (evU : MemberUpdateEvent) (evV : VoiceEvent)
    (hne : cfg.watchGuildIds.isEmpty = false)
    (habs : cfg.watchGuildIds.contains g.id = false)
    (hU : evU.guild = g) (hV : evV.guild = g) :
    guild_is_watched cfg g = ⟨false, false⟩ ∧
    on_member_join cfg g memberName now = ⟨[], false⟩ ∧
    on_member_update cfg evU now = ⟨[], false⟩ ∧
    on_voice_state_update cfg evV now = ⟨[], false⟩ := by
  have hg : guild_is_watched cfg g = ⟨false, false⟩ := by
    unfold guild_is_watched
    rw [hne, habs]
    rfl
  refine ⟨hg, ?_, ?_, ?_⟩
  · simp [on_member_join, hg]
  · unfold on_member_update
    split
    · rfl
    · rw [hU, hg]
      rfl
  · unfold on_voice_state_update
    split
    · rfl
    · rw [hV, hg]
      rfl

/-- Witness for C5 at a concrete out-of-allowlist guild. -/
theorem allowlist_blocks_all_relay_witness :
    guild_is_watched cfgAllow guildOut = ⟨false, false⟩ ∧
    on_member_join cfgAllow guildOut "alice" nowX = ⟨[], false⟩ ∧
    on_member_update cfgAllow evUOut nowX = ⟨[], false⟩ ∧
    on_voice_state_update cfgAllow evVOut nowX = ⟨[], false⟩ :=
  allowlist_blocks_all_relay cfgAllow guildOut "alice" nowX evUOut evVOut
    rfl rfl rfl rfl

/-- C8: an empty optional watch set disables its feature entirely: with an
empty watched text-channel set the member-update handler returns no relay
text and performs no remote member lookup, and likewise for the voice handler
with an empty watched voice-channel set. -/
theorem empty_watch_sets_disable (cfg : Config) (evU : MemberUpdateEvent)
    (evV : VoiceEvent) (now : DateTimeUTC) :
    (cfg.watchTextChannelIds = [] → on_member_update cfg evU now = ⟨[], false⟩) ∧
    (cfg.watchVoiceChannelIds = [] → on_voice_state_update cfg evV now = ⟨[], false⟩) := by
  constructor
  · intro h
    simp [on_member_update, h]
  · intro h
    simp [on_voice_state_update, h]

/-- Witness for C8 with both watch sets empty. -/
theorem empty_watch_sets_disable_witness :
    ((⟨7, 100, [], [], []⟩ : Config).watchTextChannelIds = [] →
      on_member_update ⟨7, 100, [], [], []⟩ evUHome nowX = ⟨[], false⟩) ∧
    ((⟨7, 100, [], [], []⟩ : Config).watchVoiceChannelIds = [] →
      on_voice_state_update ⟨7, 100, [], [], []⟩ evVHome nowX = ⟨[], false⟩) :=
  empty_watch_sets_disable ⟨7, 100, [], [], []⟩ evUHome evVHome nowX

/-- When the gates pass, the member-update handler's relay texts are the
filterMap of the per-channel step over the watch list. -/
theorem on_member_update_msgs_of_watched (cfg : Config) (ev : MemberUpdateEvent)
    (now : DateTimeUTC)
    (hne : cfg.watchTextChannelIds.isEmpty = false)
    (hw : (guild_is_watched cfg ev.guild).watched = true) :
    (on_member_update cfg ev now).msgs =
      cfg.watchTextChannelIds.filterMap (accessNotification ev now) := by
  simp only [on_member_update, hne, Bool.false_eq_true, if_false, hw, if_true]

/-- C2: a gained-access notification for a watched, suitably-kinded channel is
produced exactly on the false-to-true view-permission edge, and on that edge
the member-update handler relays it. -/
theorem gained_access_iff_edge (cfg : Config) (ev : MemberUpdateEvent)
    (now : DateTimeUTC) (chId : Nat) (ch : Channel) (b a : Bool)
    (hmem : cfg.watchTextChannelIds.contains chId = true)
    (hw : (guild_is_watched cfg ev.guild).watched = true)
    (hch : ev.guild.getChannel chId = some ch)
    (hkind : suitableTextKind ch.kind = true)
    (hb : ev.permBefore chId = Except.ok b)
    (ha : ev.permAfter chId = Except.ok a) :
    (accessNotification ev now chId = some (gainedAccessMsg ev ch now) ↔
      (b = false ∧ a = true)) ∧
    (b = false → a = true →
      gainedAccessMsg ev ch now ∈ (on_member_update cfg ev now).msgs) := by
  have hacc : accessNotification ev now chId =
      (if !b && a then some (gainedAccessMsg ev ch now) else none) := by
    simp only [accessNotification, hch, hkind, if_true, hb, ha]
  constructor
  · rw [hacc]
    cases b <;> cases a <;> simp
  · intro hbf hat
    subst hbf
    subst hat
    have hsome : accessNotification ev now chId = some (gainedAccessMsg ev ch now) := by
      rw [hacc]
      rfl
    have hmem2 : chId ∈ cfg.watchTextChannelIds := by
      simpa using hmem
    have hne : cfg.watchTextChannelIds.isEmpty = false := by
      cases hL : cfg.watchTextChannelIds with
      | nil =>
        rw [hL] at hmem2
        cases hmem2
      | cons x xs => rfl
    rw [on_member_update_msgs_of_watched cfg ev now hne hw]
    exact List.mem_filterMap.mpr ⟨chId, hmem2, hsome⟩

/-- Witness for C2: in a watched guild, channel 42 with a false-to-true edge. -/
theorem gained_access_iff_edge_witness :
    (accessNotification evUHome nowX 42 = some (gainedAccessMsg evUHome chGeneral nowX) ↔
      (false = false ∧ true = true)) ∧
    (false = false → true = true →
      gainedAccessMsg evUHome chGeneral nowX ∈ (on_member_update cfgA evUHome nowX).msgs) :=
  gained_access_iff_edge cfgA evUHome nowX 42 chGeneral false true
    rfl (by decide) rfl rfl rfl rfl

/-- C7: a permission-computation failure on one watched channel yields no
notification for that channel, and the handler's output is exactly the output
of the remaining watched channels on both sides of it. -/
theorem perm_failure_skips_only_channel (cfg : Config) (ev : MemberUpdateEvent)
    (now : DateTimeUTC) (l1 l2 : List Nat) (badId : Nat)
    (hw : (guild_is_watched cfg ev.guild).watched = true)
    (hsplit : cfg.watchTextChannelIds = l1 ++ badId :: l2)
    (hbad : ev.permBefore badId = Except.error () ∨
      ev.permAfter badId = Except.error ()) :
    accessNotification ev now badId = none ∧
    (on_member_update cfg ev now).msgs =
      l1.filterMap (accessNotification ev now) ++
        l2.filterMap (accessNotification ev now) := by
  have hnone : accessNotification ev now badId = none := by
    unfold accessNotification
    cases hc : ev.guild.getChannel badId with
    | none => rfl
    | some ch =>
      rcases hbad with h | h
      · cases hpa : ev.permAfter badId <;> simp [h, hpa]
      · cases hpb : ev.permBefore badId <;> simp [h, hpb]
  have hne : cfg.watchTextChannelIds.isEmpty = false := by
    rw [hsplit]
    cases l1 <;> rfl
  refine ⟨hnone, ?_⟩
  rw [on_member_update_msgs_of_watched cfg ev now hne hw, hsplit,
    List.filterMap_append]
  rw [List.filterMap_cons_none hnone]

/-- Witness for C7: watch list [41, 42, 43] where the before-permission
computation raises on 42. -/
theorem perm_failure_skips_only_channel_witness :
    accessNotification evUBad nowX 42 = none ∧
    (on_member_update cfgMulti evUBad nowX).msgs =
      ([41] : List Nat).filterMap (accessNotification evUBad nowX) ++
        ([43] : List Nat).filterMap (accessNotification evUBad nowX) :=
  perm_failure_skips_only_channel cfgMulti evUBad nowX [41] [43] 42
    (by decide) rfl (Or.inl rfl)

/-- When the gates pass, the voice handler's relay texts are the
classification body's output. -/
theorem on_voice_state_update_msgs_of_watched (cfg : Config) (ev : VoiceEvent)
    (now : DateTimeUTC)
    (hne : cfg.watchVoiceChannelIds.isEmpty = false)
    (hw : (guild_is_watched cfg ev.guild).watched = true) :
    (on_voice_state_update cfg ev now).msgs = voiceMsgs cfg ev now := by
  simp only [on_voice_state_update, hne, Bool.false_eq_true, if_false, hw, if_true]

/-- C3: past the gates, a voice-state update with unchanged channel produces
nothing; with a changed channel, the output is exactly determined by watch-set
membership of the two endpoints — joined, left, moved, or nothing — so the
three reporting outcomes are mutually exclusive. -/
theorem voice_transition_classification (cfg : Config) (ev : VoiceEvent)
    (now : DateTimeUTC)
    (hne : cfg.watchVoiceChannelIds.isEmpty = false)
    (hw : (guild_is_watched cfg ev.guild).watched = true) :
    (ev.after.map Channel.id = ev.before.map Channel.id →
      (on_voice_state_update cfg ev now).msgs = []) ∧
    (ev.after.map Channel.id ≠ ev.before.map Channel.id →
      ((in_watch cfg ev.after = true ∧ in_watch cfg ev.before = false) →
        (on_voice_state_update cfg ev now).msgs = [joinedVoiceMsg ev now]) ∧
      ((in_watch cfg ev.before = true ∧ in_watch cfg ev.after = false) →
        (on_voice_state_update cfg ev now).msgs = [leftVoiceMsg ev now]) ∧
      ((in_watch cfg ev.before = true ∧ in_watch cfg ev.after = true) →
        (on_voice_state_update cfg ev now).msgs = [movedVoiceMsg ev now]) ∧
      ((in_watch cfg ev.before = false ∧ in_watch cfg ev.after = false) →
        (on_voice_state_update cfg ev now).msgs = [])) := by
  have hm := on_voice_state_update_msgs_of_watched cfg ev now hne hw
  constructor
  · intro h
    rw [hm]
    unfold voiceMsgs
    rw [if_neg (not_not_intro h)]
  · intro hd
    refine ⟨?_, ?_, ?_, ?_⟩ <;> rintro ⟨h1, h2⟩ <;> rw [hm] <;> unfold voiceMsgs <;>
      rw [if_pos hd] <;> simp [h1, h2]

/-- Witness for C3: moving from the unwatched afk channel into the watched
lounge. -/
theorem voice_transition_classification_witness :
    (evVHome.after.map Channel.id = evVHome.before.map Channel.id →
      (on_voice_state_update cfgA evVHome nowX).msgs = []) ∧
    (evVHome.after.map Channel.id ≠ evVHome.before.map Channel.id →
      ((in_watch cfgA evVHome.after = true ∧ in_watch cfgA evVHome.before = false) →
        (on_voice_state_update cfgA evVHome nowX).msgs = [joinedVoiceMsg evVHome nowX]) ∧
      ((in_watch cfgA evVHome.before = true ∧ in_watch cfgA evVHome.after = false) →
        (on_voice_state_update cfgA evVHome nowX).msgs = [leftVoiceMsg evVHome nowX]) ∧
      ((in_watch cfgA evVHome.before = true ∧ in_watch cfgA evVHome.after = true) →
        (on_voice_state_update cfgA evVHome nowX).msgs = [movedVoiceMsg evVHome nowX]) ∧
      ((in_watch cfgA evVHome.before = false ∧ in_watch cfgA evVHome.after = false) →
        (on_voice_state_update cfgA evVHome nowX).msgs = [])) :=
  voice_transition_classification cfgA evVHome nowX rfl (by decide)

/-- C10: past the gates, an absent voice location counts as unwatched:
disconnecting from a watched channel reports a leave, connecting from nothing
into a watched channel reports a join, and the moved outcome cannot fire when
either endpoint is absent. -/
theorem absent_voice_location (cfg : Config) (ev : VoiceEvent) (now : DateTimeUTC)
    (hne : cfg.watchVoiceChannelIds.isEmpty = false)
    (hw : (guild_is_watched cfg ev.guild).watched = true) :
    (ev.after = none → in_watch cfg ev.before = true →
      (on_voice_state_update cfg ev now).msgs = [leftVoiceMsg ev now]) ∧
    (ev.before = none → in_watch cfg ev.after = true →
      (on_voice_state_update cfg ev now).msgs = [joinedVoiceMsg ev now]) ∧
    ((ev.before = none ∨ ev.after = none) →
      (on_voice_state_update cfg ev now).msgs = [] ∨
      (on_voice_state_update cfg ev now).msgs = [joinedVoiceMsg ev now] ∨
      (on_voice_state_update cfg ev now).msgs = [leftVoiceMsg ev now]) := by
  have hm := on_voice_state_update_msgs_of_watched cfg ev now hne hw
  refine ⟨?_, ?_, ?_⟩
  · intro hA hB
    rw [hm]
    cases hbc : ev.before with
    | none =>
      rw [hbc] at hB
      simp [in_watch] at hB
    | some c =>
      rw [hbc] at hB
      simp [in_watch] at hB
      simp [voiceMsgs, hA, hbc, in_watch, hB]
  · intro hB hA
    rw [hm]
    cases hac : ev.after with
    | none =>
      rw [hac] at hA
      simp [in_watch] at hA
    | some c =>
      rw [hac] at hA
      simp [in_watch] at hA
      simp [voiceMsgs, hB, hac, in_watch, hA]
  · intro h
    rw [hm]
    unfold voiceMsgs
    split
    · split
      · exact Or.inr (Or.inl rfl)
      · split
        · exact Or.inr (Or.inr rfl)
        · split
          · rename_i hc3
            exfalso
            rcases h with h | h <;> simp [in_watch, h] at hc3
          · exact Or.inl rfl
    · exact Or.inl rfl

/-- Witness for C10: leaving the watched lounge for no voice channel. -/
theorem absent_voice_location_witness :
    (evVLeave.after = none → in_watch cfgA evVLeave.before = true →
      (on_voice_state_update cfgA evVLeave nowX).msgs = [leftVoiceMsg evVLeave nowX]) ∧
    (evVLeave.before = none → in_watch cfgA evVLeave.after = true →
      (on_voice_state_update cfgA evVLeave nowX).msgs = [joinedVoiceMsg evVLeave nowX]) ∧
    ((evVLeave.before = none ∨ evVLeave.after = none) →
      (on_voice_state_update cfgA evVLeave nowX).msgs = [] ∨
      (on_voice_state_update cfgA evVLeave nowX).msgs = [joinedVoiceMsg evVLeave nowX] ∨
      (on_voice_state_update cfgA evVLeave nowX).msgs = [leftVoiceMsg evVLeave nowX]) :=
  absent_voice_location cfgA evVLeave nowX rfl (by decide)

/-- Every character `digitChar` produces is a decimal digit. -/
theorem isDigit_digitChar (n : Nat) : (digitChar n).isDigit = true := by
  have h : n % 10 < 10 := Nat.mod_lt n (by norm_num)
  unfold digitChar
  revert h
  generalize n % 10 = r
  intro h
  interval_cases r <;> decide

/-- The character list of a formatted timestamp, spelled out. -/
theorem toList_now_utc_str (t : DateTimeUTC) :
    (now_utc_str t).toList =
      [digitChar (t.year / 1000), digitChar (t.year / 100), digitChar (t.year / 10),
       digitChar t.year, '-', digitChar (t.month / 10), digitChar t.month, '-',
       digitChar (t.day / 10), digitChar t.day, ' ', digitChar (t.hour / 10),
       digitChar t.hour, ':', digitChar (t.minute / 10), digitChar t.minute, ':',
       digitChar (t.second / 10), digitChar t.second, ' ', 'U', 'T', 'C'] := rfl

/-- C9: a qualifying member join in a watched guild relays exactly one
message, of the form name, " joined : ", guild name, " at ", timestamp; and
the timestamp renders as `YYYY-MM-DD HH:MM:SS UTC`. -/
theorem join_relay_message_format (cfg : Config) (g : Guild)
    (memberName : String) (now : DateTimeUTC)
    (hw : (guild_is_watched cfg g).watched = true) :
    (on_member_join cfg g memberName now).msgs =
      [memberName ++ " joined : " ++ g.name ++ " at " ++ now_utc_str now] ∧
    timestampFormatOk (now_utc_str now) = true := by
  constructor
  · simp [on_member_join, hw]
  · unfold timestampFormatOk
    rw [toList_now_utc_str]
    simp [isDigit_digitChar]

/-- Witness for C9: alice joins the watched guild G. -/
theorem join_relay_message_format_witness :
    (on_member_join cfgA guildHome "alice" nowX).msgs =
      ["alice" ++ " joined : " ++ guildHome.name ++ " at " ++ now_utc_str nowX] ∧
    timestampFormatOk (now_utc_str nowX) = true :=
  join_relay_message_format cfgA guildHome "alice" nowX (by decide)

/-- The channel-kind check and send of `relay` leave the fetched flag as
given. -/
theorem relaySend_fetched (cfg : Config) (env : RelayEnv) (st : ClientState)
    (ch : Channel) (text : String) (f : Bool) :
    (relaySend cfg env st ch text f).fetched = f := by
  unfold relaySend
  split
  · cases env.send <;> rfl
  · rfl

/-- The channel-kind check and send of `relay` leave the client state as
given. -/
theorem relaySend_state (cfg : Config) (env : RelayEnv) (st : ClientState)
    (ch : Channel) (text : String) (f : Bool) :
    (relaySend cfg env st ch text f).state = st := by
  unfold relaySend
  split
  · cases env.send <;> rfl
  · rfl

/-- C4 as stated is false on the code: with the relay channel cached as a
text channel and the send failing with an error other than Forbidden, the
exception escapes `relay` to its caller (the `except` clause at the send site
catches only `discord.Forbidden`). -/
theorem relay_send_error_escapes :
    (relay ⟨7, 100, [], [], []⟩ ⟨Except.error (), SendOutcome.httpError⟩
        ⟨[⟨100, "relay", ChannelKind.text⟩]⟩ "hi").uncaught = true := by
  decide

/-- C4 amended: the only way an exception escapes `relay` is a send failure
other than permission-denied on a resolved text-kind channel; resolution
failures, wrong-type destinations and Forbidden send responses are always
swallowed. -/
theorem relay_uncaught_iff (cfg : Config) (env : RelayEnv) (st : ClientState)
    (text : String) :
    (relay cfg env st text).uncaught = true ↔
      (∃ ch, resolvedRelayChannel cfg env st = some ch ∧
        ch.kind = ChannelKind.text ∧ env.send = SendOutcome.httpError) := by
  unfold relay resolvedRelayChannel
  cases hf : st.channelCache.find? (fun c => c.id == cfg.relayChannelId) with
  | some ch =>
    unfold relaySend
    by_cases hk : ch.kind = ChannelKind.text
    · cases hs : env.send <;> simp [hk, hs]
    · cases hs : env.send <;> simp [hk, hs]
  | none =>
    cases hfc : env.fetchChannel with
    | error e => simp
    | ok ch =>
      unfold relaySend
      by_cases hk : ch.kind = ChannelKind.text
      · cases hs : env.send <;> simp [hk, hs]
      · cases hs : env.send <;> simp [hk, hs]

/-- C6: on a cache miss, `relay` attempts the one remote fetch; if the fetch
fails it logs an error and returns with nothing sent and the state unchanged
(the message is dropped); if the fetch succeeds it populates the cache, so a
later `relay` call resolves from cache and performs no remote fetch. -/
theorem relay_cache_miss_single_fetch (cfg : Config) (env env2 : RelayEnv)
    (st : ClientState) (text text2 : String) (ch : Channel)
    (hmiss : st.channelCache.find? (fun c => c.id == cfg.relayChannelId) = none) :
    (relay cfg env st text).fetched = true ∧
    (env.fetchChannel = Except.error () →
      relay cfg env st text =
        ⟨st, [(LogLevel.error,
          "Relay channel not found (id=" ++ toString cfg.relayChannelId ++ ")")],
          [], true, false⟩) ∧
    (env.fetchChannel = Except.ok ch → ch.id = cfg.relayChannelId →
      (relay cfg env st text).state.channelCache.find?
          (fun c => c.id == cfg.relayChannelId) = some ch ∧
      (relay cfg env2 (relay cfg env st text).state text2).fetched = false) := by
  refine ⟨?_, ?_, ?_⟩
  · unfold relay
    rw [hmiss]
    cases hfc : env.fetchChannel with
    | error e => rfl
    | ok c => exact relaySend_fetched cfg env ⟨c :: st.channelCache⟩ c text true
  · intro hfc
    unfold relay
    rw [hmiss, hfc]
  · intro hfc hid
    have hrel : (relay cfg env st text).state = ⟨ch :: st.channelCache⟩ := by
      unfold relay
      rw [hmiss, hfc]
      exact relaySend_state cfg env ⟨ch :: st.channelCache⟩ ch text true
    have hfind : (ClientState.mk (ch :: st.channelCache)).channelCache.find?
        (fun c => c.id == cfg.relayChannelId) = some ch := by
      simp [List.find?, hid]
    constructor
    · rw [hrel]
      exact hfind
    · rw [hrel]
      unfold relay
      rw [hfind]
      exact relaySend_fetched cfg env2 ⟨ch :: st.channelCache⟩ ch text2 false

/-- Witness for C6: empty cache, fetch returns the text-kind relay channel. -/
theorem relay_cache_miss_single_fetch_witness :
    (relay cfgA envOk ⟨[]⟩ "hi").fetched = true ∧
    (envOk.fetchChannel = Except.error () →
      relay cfgA envOk ⟨[]⟩ "hi" =
        ⟨⟨[]⟩, [(LogLevel.error,
          "Relay channel not found (id=" ++ toString cfgA.relayChannelId ++ ")")],
          [], true, false⟩) ∧
    (envOk.fetchChannel = Except.ok chRelay → chRelay.id = cfgA.relayChannelId →
      (relay cfgA envOk ⟨[]⟩ "hi").state.channelCache.find?
          (fun c => c.id == cfgA.relayChannelId) = some chRelay ∧
      (relay cfgA envOk (relay cfgA envOk ⟨[]⟩ "hi").state "ho").fetched = false) :=
  relay_cache_miss_single_fetch cfgA envOk envOk ⟨[]⟩ "hi" "ho" chRelay rfl

end Agubot
